import Mathlib

/-!
Shallow embedding of the airplane-game simulation core.

The sources embedded here are the game component (phase state machine,
per-frame loop, obstacle lifecycle, restart) and the entity classes
Airplane and Obstacle.  JavaScript numbers are modelled as real numbers,
and the trigonometric routines of the host platform as the real sine and
cosine.  The requestAnimationFrame handle stored in frameIdRef is
modelled as a counter that grows by one per frame.  The axis-aligned
bounding box that THREE.Box3.setFromObject computes for the airplane's
composite mesh is kept abstract: the per-frame functions take the
box-of-the-vehicle function as an explicit parameter, while the box of
an obstacle (a single cone mesh) is computed exactly.  Calls to
Math.random are modelled as explicit draw inputs threaded into the
frame.  State updates queued through setGameState are modelled as taking
effect before the next frame reads the state.
-/

namespace AirplaneGame

open Classical

/-- A THREE.Vector3: a triple of coordinates. -/
structure Vec3 where
  x : ℝ
  y : ℝ
  z : ℝ

/-- The latched control-intent record of the Airplane class
(up, down, left, right, boost held-key booleans). -/
structure Controls where
  up : Bool
  down : Bool
  left : Bool
  right : Bool
  boost : Bool

/-- The mutable simulation state of the Airplane class: mesh position,
mesh Euler rotation (order XYZ: x pitch, y yaw, z roll) and velocity.
Purely cosmetic members (propeller spin, particle buffer) are omitted. -/
structure Plane where
  position : Vec3
  rotation : Vec3
  velocity : Vec3

/-- Airplane.MAX_SPEED. -/
noncomputable def MAX_SPEED : ℝ := 30

/-- Airplane.BOOST_SPEED. -/
noncomputable def BOOST_SPEED : ℝ := 50

/-- Airplane.ROTATION_SPEED. -/
noncomputable def ROTATION_SPEED : ℝ := 2

/-- Airplane.TILT_FACTOR. -/
noncomputable def TILT_FACTOR : ℝ := 3 / 10

/-- Airplane.TAKEOFF_SPEED. -/
noncomputable def TAKEOFF_SPEED : ℝ := 20

/-- Math.max(x, lo) composed with Math.min(x, hi): the pattern
Math.max(Math.min(v, pi/4), -pi/4) used to limit rotations. -/
noncomputable def clampAngle (v : ℝ) : ℝ :=
  max (min v (Real.pi / 4)) (-(Real.pi / 4))

/-- THREE.MathUtils.lerp(x, y, t) = (1 - t) * x + t * y. -/
noncomputable def lerp (a b t : ℝ) : ℝ := (1 - t) * a + t * b

/-- The ground clamp at the end of Airplane.updateTakeoff: while
descending, the vertical position may never go below the runway surface
height 0.5; snap to the surface and zero the vertical velocity. -/
noncomputable def groundClamp (s : Plane) : Plane :=
  if s.position.y < 0.5 ∧ s.velocity.y < 0 then
    { s with
      position := ⟨s.position.x, 0.5, s.position.z⟩,
      velocity := ⟨s.velocity.x, 0, s.velocity.z⟩ }
  else s

/-- Airplane.updateTakeoff(deltaTime): taxi/takeoff control law.
Acceleration 10 while boost is held, -5 otherwise; velocity.z integrates
and is clamped non-positive; above speed 0.1 the physics branch runs
(pitch-up honored above half the takeoff speed with the pitch clamped at
-pi/4, lift from speed and pitch, gravity, position integration),
otherwise the vertical velocity is reset and the resting height snapped;
finally the ground clamp applies. -/
noncomputable def updateTakeoff (c : Controls) (dt : ℝ) (s : Plane) : Plane :=
  let acceleration : ℝ := if c.boost then 10 else -5
  let vz := min 0 (s.velocity.z - acceleration * dt)
  let currentSpeed := |vz|
  let s1 :=
    if 0.1 < currentSpeed then
      let rx :=
        if TAKEOFF_SPEED / 2 < currentSpeed ∧ c.up = true then
          max (s.rotation.x - ROTATION_SPEED * 0.5 * dt) (-(Real.pi / 4))
        else s.rotation.x
      let vy1 :=
        if TAKEOFF_SPEED / 2 < currentSpeed then
          s.velocity.y + currentSpeed / TAKEOFF_SPEED * Real.sin (-rx) * 5 * dt
        else s.velocity.y
      let vy := vy1 - 9.8 * dt
      { position := ⟨s.position.x + s.velocity.x * dt,
                     s.position.y + vy * dt,
                     s.position.z + vz * dt⟩,
        rotation := ⟨rx, s.rotation.y, s.rotation.z⟩,
        velocity := ⟨s.velocity.x, vy, vz⟩ }
    else
      let py := if |s.position.y - 0.5| < 0.1 then (0.5 : ℝ) else s.position.y
      { position := ⟨s.position.x, py, s.position.z⟩,
        rotation := s.rotation,
        velocity := ⟨s.velocity.x, 0, vz⟩ }
  groundClamp s1

/-- The forward direction of Airplane.update: the vector (0, 0, -1)
rotated by the mesh quaternion.  For a THREE Euler (rx, ry, rz) of order
XYZ this equals (-sin ry, sin rx * cos ry, -(cos rx * cos ry)); the roll
component rz does not enter. -/
noncomputable def flightDirection (rx ry : ℝ) : Vec3 :=
  ⟨-Real.sin ry, Real.sin rx * Real.cos ry, -(Real.cos rx * Real.cos ry)⟩

/-- Airplane.update(deltaTime): flight control law.  Pitch and roll are
driven by held intents at ROTATION_SPEED with roll inducing yaw at half
that rate, both pitch and roll clamped to [-pi/4, pi/4]; velocity is set
to direction times target speed (boost or cruise); position integrates;
finally the roll is interpolated toward the bank target. -/
noncomputable def update (c : Controls) (dt : ℝ) (s : Plane) : Plane :=
  let rx0 := if c.up then s.rotation.x - ROTATION_SPEED * dt else s.rotation.x
  let rx1 := if c.down then rx0 + ROTATION_SPEED * dt else rx0
  let rz0 := if c.left then s.rotation.z + ROTATION_SPEED * dt else s.rotation.z
  let ry0 := if c.left then s.rotation.y + ROTATION_SPEED * 0.5 * dt else s.rotation.y
  let rz1 := if c.right then rz0 - ROTATION_SPEED * dt else rz0
  let ry1 := if c.right then ry0 - ROTATION_SPEED * 0.5 * dt else ry0
  let rx := clampAngle rx1
  let rz := clampAngle rz1
  let dir := flightDirection rx ry1
  let targetSpeed : ℝ := if c.boost then BOOST_SPEED else MAX_SPEED
  let vel : Vec3 := ⟨dir.x * targetSpeed, dir.y * targetSpeed, dir.z * targetSpeed⟩
  let pos : Vec3 := ⟨s.position.x + vel.x * dt,
                     s.position.y + vel.y * dt,
                     s.position.z + vel.z * dt⟩
  let targetBankZ : ℝ := if c.left then TILT_FACTOR else if c.right then -TILT_FACTOR else 0
  { position := pos,
    rotation := ⟨rx, ry1, lerp rz targetBankZ (dt * 2)⟩,
    velocity := vel }

/-- A THREE.Box3: an axis-aligned box given by two corner vectors. -/
structure Box3 where
  lo : Vec3
  hi : Vec3

/-- THREE.Box3.intersectsBox(box): the boxes intersect unless they are
separated along some axis (touching counts as intersecting).  The
receiver is the first argument, matching this.boundingBox in
Obstacle.checkCollision. -/
def intersectsBox (a b : Box3) : Prop :=
  ¬ (b.hi.x < a.lo.x ∨ a.hi.x < b.lo.x ∨
     b.hi.y < a.lo.y ∨ a.hi.y < b.lo.y ∨
     b.hi.z < a.lo.z ∨ a.hi.z < b.lo.z)

/-- The Obstacle entity: a cone mesh of given radius and height placed
at a position.  The cone geometry is centered at the mesh origin with
the axis along y, so its axis-aligned bounding box has half-extents
(radius, height / 2, radius); the rotation by pi about x leaves that box
unchanged, and the constructor overwrites the mesh position with the
given position. -/
structure Obstacle where
  position : Vec3
  radius : ℝ
  height : ℝ

/-- The bounding box Obstacle.update recomputes from the current
transform via Box3.setFromObject. -/
noncomputable def obstacleBox (o : Obstacle) : Box3 :=
  ⟨⟨o.position.x - o.radius, o.position.y - o.height / 2, o.position.z - o.radius⟩,
   ⟨o.position.x + o.radius, o.position.y + o.height / 2, o.position.z + o.radius⟩⟩

/-- Obstacle.checkCollision(object): intersect the obstacle's bounding
box with the bounding box of the given object (here the airplane mesh,
whose box is supplied by the abstract box-of-the-vehicle function). -/
noncomputable def checkCollision (o : Obstacle) (objectBox : Box3) : Prop :=
  intersectsBox (obstacleBox o) objectBox

/-- Modelled from the spec: the specification describes the vehicle
collision volume as a fixed-radius sphere centered on the vehicle
position with radius about 1.5, intersected against the obstacle
volume.  A sphere meets a box exactly when the squared distance from
the center to the box (via the coordinatewise closest point) is at most
the squared radius.  This definition follows the specification's words,
for comparison with checkCollision, which is translated from the code. -/
noncomputable def sphereIntersectsBox (c : Vec3) (r : ℝ) (b : Box3) : Prop :=
  (c.x - max b.lo.x (min c.x b.hi.x)) ^ 2 +
  (c.y - max b.lo.y (min c.y b.hi.y)) ^ 2 +
  (c.z - max b.lo.z (min c.z b.hi.z)) ^ 2 ≤ r ^ 2

/-- The gamePhase field: 'takeoff' or 'flight'. -/
inductive Phase where
  | takeoff
  | flight
deriving DecidableEq

/-- The GameState record held in the React state hook. -/
structure GameState where
  score : ℤ
  isGameOver : Bool
  playerPosition : Vec3
  gamePhase : Phase
  speed : ℝ

/-- The complete per-session simulation state owned by the component:
the game state, the airplane, the obstacle list and the frame handle
counter. -/
structure World where
  game : GameState
  plane : Plane
  obstacles : List Obstacle
  frameId : ℕ

/-- One obstacle's worth of Math.random() draws (each in [0, 1)): three
for the position expression and two consumed by the cone geometry. -/
structure Draw where
  dx : ℝ
  dy : ℝ
  dz : ℝ
  dRadius : ℝ
  dHeight : ℝ

/-- One obstacle as built inside generateObstacles: position
(random * 60 - 30, random * 20 + 10, planeZ - 100 - random * 100) and a
cone with radius random * 10 + 5 and height random * 15 + 10. -/
noncomputable def mkSpawnObstacle (planeZ : ℝ) (d : Draw) : Obstacle :=
  { position := ⟨d.dx * 60 - 30, d.dy * 20 + 10, planeZ - 100 - d.dz * 100⟩,
    radius := d.dRadius * 10 + 5,
    height := d.dHeight * 15 + 10 }

/-- The obstacle built by addObstacle: like the initial spawn but with
longitudinal position planeZ - 200 - random * 50. -/
noncomputable def mkAddObstacle (planeZ : ℝ) (d : Draw) : Obstacle :=
  { position := ⟨d.dx * 60 - 30, d.dy * 20 + 10, planeZ - 200 - d.dz * 50⟩,
    radius := d.dRadius * 10 + 5,
    height := d.dHeight * 15 + 10 }

/-- The despawn filter of handleFlightPhase: an obstacle is kept unless
its z position has fallen more than 50 units behind the (updated)
airplane position. -/
noncomputable def despawnKept (planeZ : ℝ) (obstacles : List Obstacle) : List Obstacle :=
  obstacles.filter fun o => !decide (planeZ + 50 < o.position.z)

/-- handleTakeoffPhase(deltaTime): update the airplane with the takeoff
control law, then promote to the flight phase and generate the initial
obstacles when position.z < -50 and position.y > 5.  The source spawns
exactly five obstacles from fresh random draws; the draws are the
spawnDraws input. -/
noncomputable def handleTakeoffPhase (c : Controls) (dt : ℝ) (spawnDraws : List Draw)
    (w : World) : World :=
  let plane := updateTakeoff c dt w.plane
  if plane.position.z < -50 ∧ 5 < plane.position.y then
    { w with
      plane := plane,
      game := { w.game with gamePhase := Phase.flight },
      obstacles := w.obstacles ++ spawnDraws.map (mkSpawnObstacle plane.position.z) }
  else
    { w with plane := plane }

/-- handleFlightPhase(deltaTime): update the airplane with the flight
control law; test every active obstacle's bounding box against the
airplane's bounding box, latching game-over on any intersection; remove
obstacles more than 50 units behind the airplane; add one obstacle when
fewer than five remain; recompute the score from longitudinal distance
on every sixtieth frame handle. -/
noncomputable def handleFlightPhase (planeBoxOf : Plane → Box3) (c : Controls) (dt : ℝ)
    (addDraw : Draw) (w : World) : World :=
  let plane := update c dt w.plane
  let collided := ∃ o ∈ w.obstacles, checkCollision o (planeBoxOf plane)
  let go := if collided then true else w.game.isGameOver
  let kept := despawnKept plane.position.z w.obstacles
  let obstacles :=
    if kept.length < 5 then kept ++ [mkAddObstacle plane.position.z addDraw] else kept
  let score :=
    if w.frameId % 60 = 0 then Int.floor (|plane.position.z| / 10) else w.game.score
  { game := { w.game with score := score, isGameOver := go },
    plane := plane,
    obstacles := obstacles,
    frameId := w.frameId }

/-- THREE.Vector3.length(). -/
noncomputable def norm3 (v : Vec3) : ℝ := Real.sqrt (v.x ^ 2 + v.y ^ 2 + v.z ^ 2)

/-- The per-frame inputs the loop consumes: the latched controls, the
raw elapsed time, and the random draws used if the initial spawn or the
replenish rule fires this frame. -/
structure FrameInput where
  controls : Controls
  rawDt : ℝ
  spawnDraws : List Draw
  addDraw : Draw

/-- The animate() frame: clamp the delta time to 0.1; when the game is
not over, dispatch to the phase handler, then publish the airplane
position and speed into the game state; finally the frame handle
advances (requestAnimationFrame handles modelled as consecutive). -/
noncomputable def animateFrame (planeBoxOf : Plane → Box3) (inp : FrameInput)
    (w : World) : World :=
  let dt := min inp.rawDt 0.1
  let w1 :=
    if w.game.isGameOver = true then w
    else
      let w2 :=
        match w.game.gamePhase with
        | Phase.takeoff => handleTakeoffPhase inp.controls dt inp.spawnDraws w
        | Phase.flight => handleFlightPhase planeBoxOf inp.controls dt inp.addDraw w
      { w2 with
        game := { w2.game with
          playerPosition := w2.plane.position,
          speed := norm3 w2.plane.velocity } }
  { w1 with frameId := w1.frameId + 1 }

/-- A run of consecutive animation frames. -/
noncomputable def animateRun (planeBoxOf : Plane → Box3) :
    List FrameInput → World → World
  | [], w => w
  | inp :: rest, w => animateRun planeBoxOf rest (animateFrame planeBoxOf inp w)

/-- restartGame(): reset the airplane pose and velocity to the runway
start, clear the obstacles and reset the game state record.  The held
controls and the frame handle are not touched. -/
noncomputable def restartGame (w : World) : World :=
  { game := { score := 0, isGameOver := false, playerPosition := ⟨0, 0.5, 0⟩,
              gamePhase := Phase.takeoff, speed := 0 },
    plane := { position := ⟨0, 0.5, 0⟩,
               rotation := ⟨0, Real.pi, 0⟩,
               velocity := ⟨0, 0, 0⟩ },
    obstacles := [],
    frameId := w.frameId }

/-- The session state right after initialization: the game state from
the useState initializer, the airplane positioned on the runway facing
down it (rotation.set(0, Math.PI, 0)) with zero velocity, no obstacles. -/
noncomputable def initialWorld : World :=
  { game := { score := 0, isGameOver := false, playerPosition := ⟨0, 0, 0⟩,
              gamePhase := Phase.takeoff, speed := 0 },
    plane := { position := ⟨0, 0.5, 0⟩,
               rotation := ⟨0, Real.pi, 0⟩,
               velocity := ⟨0, 0, 0⟩ },
    obstacles := [],
    frameId := 0 }

/-- A sequence of takeoff-phase vehicle updates. -/
noncomputable def takeoffRun : List (Controls × ℝ) → Plane → Plane
  | [], s => s
  | (c, dt) :: rest, s => takeoffRun rest (updateTakeoff c dt s)

/-- A sequence of flight-phase vehicle updates. -/
noncomputable def flightRun : List (Controls × ℝ) → Plane → Plane
  | [], s => s
  | (c, dt) :: rest, s => flightRun rest (update c dt s)

/-- One vehicle update step of either phase, as dispatched by the game
loop. -/
inductive PhaseStep where
  | takeoff (c : Controls) (dt : ℝ)
  | flight (c : Controls) (dt : ℝ)

/-- The delta time of a step. -/
def PhaseStep.dt : PhaseStep → ℝ
  | .takeoff _ dt => dt
  | .flight _ dt => dt

/-- A sequence of vehicle updates with arbitrary interleaving of the
two control laws. -/
noncomputable def planeRun : List PhaseStep → Plane → Plane
  | [], s => s
  | .takeoff c dt :: rest, s => planeRun rest (updateTakeoff c dt s)
  | .flight c dt :: rest, s => planeRun rest (update c dt s)

/-- No intent held. -/
def noCtl : Controls := ⟨false, false, false, false, false⟩

/-- Clearing the intents that updateTakeoff never reads. -/
def scrub (c : Controls) : Controls := { c with down := false, left := false, right := false }

/-- The longitudinal distance of the airplane from the runway start,
the quantity the score samples. -/
noncomputable def longDist (w : World) : ℝ := |w.plane.position.z|

/-- A zero draw, used where a frame consumes no randomness. -/
noncomputable def drawZero : Draw := ⟨0, 0, 0, 0, 0⟩

/-- The axis-aligned box of the airplane's wing component: the wings
are a BoxGeometry(7, 0.2, 1.5) centered at the mesh origin, so at level
pitch and roll (and yaw 0 or pi) the mesh bounding box contains the box
with half-extents (3.5, 0.1, 0.75) around the mesh position.  Any box
Box3.setFromObject returns for the airplane mesh contains this one. -/
noncomputable def wingBox (p : Vec3) : Box3 :=
  ⟨⟨p.x - 3.5, p.y - 0.1, p.z - 0.75⟩, ⟨p.x + 3.5, p.y + 0.1, p.z + 0.75⟩⟩

/-- A concrete instantiation of the box-of-the-vehicle function: a box
of fixed half-extents around the airplane position, of the size of the
airplane's deterministic solid geometry. -/
noncomputable def planeBoxDemo (p : Plane) : Box3 :=
  ⟨⟨p.position.x - 3.5, p.position.y - 1.2, p.position.z - 2.05⟩,
   ⟨p.position.x + 3.5, p.position.y + 1, p.position.z + 2⟩⟩

/-- A mountain obstacle of radius 5 and height 10 (values inside the
random ranges of createMountain) at the given position. -/
noncomputable def mountainAt (x y z : ℝ) : Obstacle :=
  { position := ⟨x, y, z⟩, radius := 5, height := 10 }

/-- An obstacle overlapping the airplane's wing box but more than 1.5
units away from the airplane position: its bounding box spans
x in [2.5, 12.5], y in [15, 25], z in [-5, 5]. -/
noncomputable def c2Obstacle : Obstacle := mountainAt 7.5 20 0

/-- The vehicle boxed by its wing span, as a box-of-the-vehicle
function. -/
noncomputable def c2PlaneBox (p : Plane) : Box3 := wingBox p.position

/-- A flight-phase state with the airplane level at (0, 20, 0), facing
down the runway, next to the wing-overlap obstacle. -/
noncomputable def c2World : World :=
  { game := { score := 0, isGameOver := false, playerPosition := ⟨0, 20, 0⟩,
              gamePhase := Phase.flight, speed := 30 },
    plane := { position := ⟨0, 20, 0⟩,
               rotation := ⟨0, Real.pi, 0⟩,
               velocity := ⟨0, 0, 30⟩ },
    obstacles := [c2Obstacle],
    frameId := 1 }

/-- Five obstacles inside the spawn value ranges, all at altitude 20
and well ahead (more negative z) of an airplane around z = -51. -/
noncomputable def c3Obstacles : List Obstacle :=
  [mountainAt 0 20 (-160), mountainAt 10 20 (-180), mountainAt (-10) 20 (-200),
   mountainAt 20 20 (-220), mountainAt (-20) 20 (-240)]

/-- The frame input of the straight-flight run: no intent held, raw
delta time 1/100 second, no randomness consumed. -/
noncomputable def c3Input : FrameInput := ⟨noCtl, 1 / 100, [], drawZero⟩

/-- The closed form of the straight-flight run: after n frames the
airplane sits at (0, 6, -51 + 0.3 n) still facing yaw pi, the score is
0 before the first sample, 5 after the sample at frame handle 60 and 3
after the sample at frame handle 120. -/
noncomputable def c3World (n : ℕ) : World :=
  { game := { score := if n = 0 then 0 else if n ≤ 60 then 5 else 3,
              isGameOver := false,
              playerPosition := ⟨0, 6, -51 + 3 / 10 * (n : ℝ)⟩,
              gamePhase := Phase.flight,
              speed := 30 },
    plane := { position := ⟨0, 6, -51 + 3 / 10 * (n : ℝ)⟩,
               rotation := ⟨0, Real.pi, 0⟩,
               velocity := ⟨0, 0, 30⟩ },
    obstacles := c3Obstacles,
    frameId := 60 + n }

/-- The straight-flight run itself: n animation frames from the state
just after the takeoff-to-flight transition. -/
noncomputable def c3Run : ℕ → World
  | 0 => c3World 0
  | n + 1 => animateFrame planeBoxDemo c3Input (c3Run n)

/-- A flight-phase state in which two obstacles (z = -150 and z = -155)
have fallen more than 50 units behind the airplane at z = -260 while
three are still ahead. -/
noncomputable def c7World : World :=
  { game := { score := 26, isGameOver := false, playerPosition := ⟨0, 6, -260⟩,
              gamePhase := Phase.flight, speed := 30 },
    plane := { position := ⟨0, 6, -260⟩,
               rotation := ⟨0, Real.pi, 0⟩,
               velocity := ⟨0, 0, 30⟩ },
    obstacles := [mountainAt 0 20 (-150), mountainAt 10 20 (-155),
                  mountainAt (-10) 20 (-240), mountainAt 20 20 (-245),
                  mountainAt (-20) 20 (-250)],
    frameId := 61 }

/-- A state whose game-over flag is already latched. -/
noncomputable def c9World : World :=
  { c2World with game := { c2World.game with isGameOver := true } }

/-- A flight-phase state past the runway origin at z = 10, moving
toward positive z, so the longitudinal distance grows frame by frame;
the score is still the initial 0, below floor(abs z / 10) = 1. -/
noncomputable def c3MonoWorld : World :=
  { game := { score := 0, isGameOver := false, playerPosition := ⟨0, 6, 10⟩,
              gamePhase := Phase.flight, speed := 30 },
    plane := { position := ⟨0, 6, 10⟩,
               rotation := ⟨0, Real.pi, 0⟩,
               velocity := ⟨0, 0, 30⟩ },
    obstacles := c3Obstacles,
    frameId := 61 }

/-!  Theorems.  -/

/-- Auxiliary: a flight update with zero delta time does not move the
airplane. -/
theorem update_zero_dt_position (c : Controls) (s : Plane) :
    (update c 0 s).position = s.position := by
  simp [update]

/-- Auxiliary: the flight update reads the physical state only through
position, velocity, pitch and yaw; two states agreeing there produce
updates agreeing there as well. -/
theorem update_physical_congr (c : Controls) (dt : ℝ) (s1 s2 : Plane)
    (hp : s1.position = s2.position) (hx : s1.rotation.x = s2.rotation.x)
    (hy : s1.rotation.y = s2.rotation.y) :
    (update c dt s1).position = (update c dt s2).position ∧
    (update c dt s1).velocity = (update c dt s2).velocity ∧
    (update c dt s1).rotation.x = (update c dt s2).rotation.x ∧
    (update c dt s1).rotation.y = (update c dt s2).rotation.y := by
  simp [update, flightDirection, hp, hx, hy]

/-- Auxiliary: the previous congruence extended to a whole run of
flight updates. -/
theorem flightRun_physical_congr (steps : List (Controls × ℝ)) :
    ∀ s1 s2 : Plane, s1.position = s2.position → s1.velocity = s2.velocity →
      s1.rotation.x = s2.rotation.x → s1.rotation.y = s2.rotation.y →
      (flightRun steps s1).position = (flightRun steps s2).position ∧
      (flightRun steps s1).velocity = (flightRun steps s2).velocity ∧
      (flightRun steps s1).rotation.x = (flightRun steps s2).rotation.x ∧
      (flightRun steps s1).rotation.y = (flightRun steps s2).rotation.y := by
  induction steps with
  | nil => intro s1 s2 hp hv hx hy; exact ⟨hp, hv, hx, hy⟩
  | cons hd tl ih =>
    intro s1 s2 hp hv hx hy
    obtain ⟨c, dt⟩ := hd
    obtain ⟨p1, v1, x1, y1⟩ := update_physical_congr c dt s1 s2 hp hx hy
    exact ih _ _ p1 v1 x1 y1

/-- C6: the smoothed roll-banking interpolation is cosmetic.  The
flight update derives the forward direction, velocity and position only
from position, pitch and yaw, none of which the bank interpolation
writes; hence after any sequence of flight updates the position,
velocity, pitch and yaw are independent of the stored roll angle. -/
theorem bank_smoothing_cosmetic (steps : List (Controls × ℝ)) (s : Plane) (a b : ℝ) :
    (flightRun steps { s with rotation := ⟨s.rotation.x, s.rotation.y, a⟩ }).position =
      (flightRun steps { s with rotation := ⟨s.rotation.x, s.rotation.y, b⟩ }).position ∧
    (flightRun steps { s with rotation := ⟨s.rotation.x, s.rotation.y, a⟩ }).velocity =
      (flightRun steps { s with rotation := ⟨s.rotation.x, s.rotation.y, b⟩ }).velocity ∧
    (flightRun steps { s with rotation := ⟨s.rotation.x, s.rotation.y, a⟩ }).rotation.x =
      (flightRun steps { s with rotation := ⟨s.rotation.x, s.rotation.y, b⟩ }).rotation.x ∧
    (flightRun steps { s with rotation := ⟨s.rotation.x, s.rotation.y, a⟩ }).rotation.y =
      (flightRun steps { s with rotation := ⟨s.rotation.x, s.rotation.y, b⟩ }).rotation.y :=
  flightRun_physical_congr steps _ _ rfl rfl rfl rfl

/-- C8: invoking the restart action from any state yields the initial
session state: phase Taxi/Takeoff, score 0, game-over false, no
obstacles, and the airplane's position, orientation and velocity at
their initial runway-start values. -/
theorem restart_resets_session (w : World) :
    (restartGame w).game.gamePhase = Phase.takeoff ∧
    (restartGame w).game.score = 0 ∧
    (restartGame w).game.isGameOver = false ∧
    (restartGame w).obstacles = [] ∧
    (restartGame w).plane = initialWorld.plane :=
  ⟨rfl, rfl, rfl, rfl, rfl⟩

/-- C9: the game-over flag is one-way within a session: once true, any
number of further animation frames leaves it true, and only the restart
action resets it to false. -/
theorem gameover_oneway (pb : Plane → Box3) (inputs : List FrameInput) (w : World)
    (h : w.game.isGameOver = true) :
    (animateRun pb inputs w).game.isGameOver = true ∧
    (restartGame w).game.isGameOver = false := by
  refine ⟨?_, rfl⟩
  induction inputs generalizing w with
  | nil => exact h
  | cons inp rest ih =>
    show (animateRun pb rest (animateFrame pb inp w)).game.isGameOver = true
    exact ih _ (by simp [animateFrame, h])

/-- Witness for C9 at a concrete latched state. -/
theorem gameover_oneway_witness :
    c9World.game.isGameOver = true ∧
    ((animateRun planeBoxDemo [c3Input] c9World).game.isGameOver = true ∧
      (restartGame c9World).game.isGameOver = false) :=
  ⟨rfl, gameover_oneway planeBoxDemo [c3Input] c9World rfl⟩

/-- Auxiliary: reduction of the phase after one frame in the takeoff
phase of a live session. -/
theorem animateFrame_takeoff_phase (pb : Plane → Box3) (inp : FrameInput) (w : World)
    (hphase : w.game.gamePhase = Phase.takeoff)
    (hgo : w.game.isGameOver = false) :
    (animateFrame pb inp w).game.gamePhase =
      if (updateTakeoff inp.controls (min inp.rawDt 0.1) w.plane).position.z < -50 ∧
          5 < (updateTakeoff inp.controls (min inp.rawDt 0.1) w.plane).position.y
        then Phase.flight else w.game.gamePhase := by
  simp only [animateFrame, hgo, Bool.false_eq_true, if_false, hphase, handleTakeoffPhase]
  split <;> first | rfl | exact hphase

/-- C1: in the Taxi/Takeoff phase the loop promotes to Flight exactly
when the longitudinal distance traveled (minus the z position, which
starts at 0 and only decreases) exceeds 50 and the altitude exceeds 5,
both at once; in particular altitude 6 at distance 40 does not
transition, and distance beyond 50 at altitude at most 5 does not
transition. -/
theorem takeoffToFlight_iff_distance_and_altitude (pb : Plane → Box3) (inp : FrameInput)
    (w : World) (hphase : w.game.gamePhase = Phase.takeoff)
    (hgo : w.game.isGameOver = false) :
    ((animateFrame pb inp w).game.gamePhase = Phase.flight ↔
      (50 < -(updateTakeoff inp.controls (min inp.rawDt 0.1) w.plane).position.z ∧
        5 < (updateTakeoff inp.controls (min inp.rawDt 0.1) w.plane).position.y)) ∧
    ((-(updateTakeoff inp.controls (min inp.rawDt 0.1) w.plane).position.z = 40 ∧
        (updateTakeoff inp.controls (min inp.rawDt 0.1) w.plane).position.y = 6) →
      (animateFrame pb inp w).game.gamePhase = Phase.takeoff) ∧
    ((50 < -(updateTakeoff inp.controls (min inp.rawDt 0.1) w.plane).position.z ∧
        (updateTakeoff inp.controls (min inp.rawDt 0.1) w.plane).position.y ≤ 5) →
      (animateFrame pb inp w).game.gamePhase = Phase.takeoff) := by
  have key := animateFrame_takeoff_phase pb inp w hphase hgo
  rw [hphase] at key
  by_cases hc :
      (updateTakeoff inp.controls (min inp.rawDt 0.1) w.plane).position.z < -50 ∧
        5 < (updateTakeoff inp.controls (min inp.rawDt 0.1) w.plane).position.y
  · rw [if_pos hc] at key
    refine ⟨⟨fun _ => ⟨by linarith [hc.1], hc.2⟩, fun _ => key⟩, ?_, ?_⟩
    · rintro ⟨h1, h2⟩
      exact absurd hc.1 (by linarith)
    · rintro ⟨h1, h2⟩
      exact absurd hc.2 (by linarith)
  · rw [if_neg hc] at key
    push_neg at hc
    refine ⟨⟨fun hf => ?_, fun hr => ?_⟩, fun _ => key, fun _ => key⟩
    · rw [key] at hf
      exact absurd hf (by simp)
    · exact absurd (hc (by linarith [hr.1])) (by linarith [hr.2])

/-- Witness for C1: the very first frame from the initial session. -/
theorem takeoffToFlight_iff_witness :
    (initialWorld.game.gamePhase = Phase.takeoff ∧
      initialWorld.game.isGameOver = false) ∧
    ((animateFrame planeBoxDemo c3Input initialWorld).game.gamePhase = Phase.flight ↔
      (50 < -(updateTakeoff c3Input.controls (min c3Input.rawDt 0.1)
          initialWorld.plane).position.z ∧
        5 < (updateTakeoff c3Input.controls (min c3Input.rawDt 0.1)
          initialWorld.plane).position.y)) :=
  ⟨⟨rfl, rfl⟩,
    (takeoffToFlight_iff_distance_and_altitude planeBoxDemo c3Input initialWorld rfl rfl).1⟩

/-- Auxiliary: the ground clamp leaves the airplane at or above the
runway height whenever, below the runway height, the airplane would
have to be descending. -/
theorem groundClamp_above (s : Plane) (h : s.position.y < 0.5 → s.velocity.y < 0) :
    0.5 ≤ (groundClamp s).position.y := by
  unfold groundClamp
  split_ifs with hc
  · exact le_refl _
  · push_neg at hc
    by_contra hlt
    push_neg at hlt
    exact absurd (h hlt) (not_lt.mpr (hc hlt))

/-- Auxiliary: one takeoff update keeps the airplane at or above the
runway height 0.5, for any non-negative delta time. -/
theorem updateTakeoff_above_runway (c : Controls) (dt : ℝ) (s : Plane)
    (hdt : 0 ≤ dt) (hy : 0.5 ≤ s.position.y) :
    0.5 ≤ (updateTakeoff c dt s).position.y := by
  simp only [updateTakeoff]
  apply groundClamp_above
  split_ifs <;> intro hlt <;> dsimp only at hlt ⊢ <;>
    first
      | (exfalso; linarith)
      | (by_contra hge; push_neg at hge; nlinarith [mul_nonneg hge hdt])

/-- Auxiliary: the runway-height invariant over a whole takeoff run. -/
theorem takeoffRun_above_runway (steps : List (Controls × ℝ)) :
    ∀ s : Plane, (∀ p ∈ steps, 0 ≤ p.2) → 0.5 ≤ s.position.y →
      0.5 ≤ (takeoffRun steps s).position.y := by
  induction steps with
  | nil => exact fun s _ hy => hy
  | cons hd tl ih =>
    intro s hdt hy
    obtain ⟨c, dt⟩ := hd
    exact ih _ (fun p hp => hdt p (List.mem_cons_of_mem _ hp))
      (updateTakeoff_above_runway c dt s (hdt _ (List.mem_cons_self _ _)) hy)

/-- C5: starting from the initial runway resting state, a sequence of
Taxi/Takeoff updates with non-negative delta times and any held intents
never brings the altitude below the runway surface height 0.5. -/
theorem altitude_never_below_runway (steps : List (Controls × ℝ))
    (hdt : ∀ p ∈ steps, 0 ≤ p.2) :
    0.5 ≤ (takeoffRun steps initialWorld.plane).position.y :=
  takeoffRun_above_runway steps initialWorld.plane hdt (by norm_num [initialWorld])

/-- Witness for C5: two frames, coasting then full throttle. -/
theorem altitude_never_below_runway_witness :
    (∀ p ∈ [(noCtl, (1 : ℝ) / 60), ((⟨true, false, false, false, true⟩ : Controls), (1 : ℝ) / 10)],
      0 ≤ p.2) ∧
    0.5 ≤ (takeoffRun
      [(noCtl, (1 : ℝ) / 60), ((⟨true, false, false, false, true⟩ : Controls), (1 : ℝ) / 10)]
      initialWorld.plane).position.y := by
  have h : ∀ p ∈ [(noCtl, (1 : ℝ) / 60),
      ((⟨true, false, false, false, true⟩ : Controls), (1 : ℝ) / 10)], 0 ≤ p.2 := by
    intro p hp
    rcases List.mem_cons.mp hp with h1 | h1
    · subst h1; norm_num
    · rw [List.mem_singleton] at h1; subst h1; norm_num
  exact ⟨h, altitude_never_below_runway _ h⟩

/-- Auxiliary: updateTakeoff reads the intent record only through the
boost and up fields, so clearing down, left and right changes nothing. -/
theorem updateTakeoff_scrub (c : Controls) (dt : ℝ) (s : Plane) :
    updateTakeoff (scrub c) dt s = updateTakeoff c dt s := rfl

/-- Auxiliary: one takeoff update from a state on the runway centerline
keeps lateral velocity and position zero, yaw at pi, roll at zero, and
never raises the pitch above level. -/
theorem updateTakeoff_centerline (c : Controls) (dt : ℝ) (s : Plane) (hdt : 0 ≤ dt)
    (hvx : s.velocity.x = 0) (hpx : s.position.x = 0) (hyaw : s.rotation.y = Real.pi)
    (hroll : s.rotation.z = 0) (hpitch : s.rotation.x ≤ 0) :
    (updateTakeoff c dt s).velocity.x = 0 ∧ (updateTakeoff c dt s).position.x = 0 ∧
    (updateTakeoff c dt s).rotation.y = Real.pi ∧ (updateTakeoff c dt s).rotation.z = 0 ∧
    (updateTakeoff c dt s).rotation.x ≤ 0 := by
  have hq : (0 : ℝ) ≤ Real.pi / 4 := by positivity
  simp only [updateTakeoff, groundClamp, ROTATION_SPEED]
  split_ifs <;>
    refine ⟨by simp [hvx], by simp [hvx, hpx], by simp [hyaw], by simp [hroll], ?_⟩ <;>
    dsimp only <;>
    first
      | exact hpitch
      | exact max_le (by nlinarith) (by linarith)

/-- Auxiliary: the centerline invariant over a whole takeoff run. -/
theorem takeoffRun_centerline (steps : List (Controls × ℝ)) :
    ∀ s : Plane, (∀ p ∈ steps, 0 ≤ p.2) →
      s.velocity.x = 0 → s.position.x = 0 → s.rotation.y = Real.pi →
      s.rotation.z = 0 → s.rotation.x ≤ 0 →
      (takeoffRun steps s).velocity.x = 0 ∧ (takeoffRun steps s).position.x = 0 ∧
      (takeoffRun steps s).rotation.y = Real.pi ∧ (takeoffRun steps s).rotation.z = 0 ∧
      (takeoffRun steps s).rotation.x ≤ 0 := by
  induction steps with
  | nil => exact fun s _ h1 h2 h3 h4 h5 => ⟨h1, h2, h3, h4, h5⟩
  | cons hd tl ih =>
    intro s hdt h1 h2 h3 h4 h5
    obtain ⟨c, dt⟩ := hd
    obtain ⟨g1, g2, g3, g4, g5⟩ :=
      updateTakeoff_centerline c dt s (hdt _ (List.mem_cons_self _ _)) h1 h2 h3 h4 h5
    exact ih _ (fun p hp => hdt p (List.mem_cons_of_mem _ hp)) g1 g2 g3 g4 g5

/-- C10: every Taxi/Takeoff update ignores the pitch-down, roll-left
and roll-right intents entirely; over any run from the initial runway
state with non-negative delta times the lateral position stays on the
centerline, yaw and roll stay at their initial values, and the pitch
never increases above its initial level value. -/
theorem takeoff_ignores_lateral_intents (steps : List (Controls × ℝ))
    (hdt : ∀ p ∈ steps, 0 ≤ p.2) :
    (∀ (c : Controls) (dt : ℝ) (s : Plane),
      updateTakeoff (scrub c) dt s = updateTakeoff c dt s) ∧
    (takeoffRun steps initialWorld.plane).position.x = 0 ∧
    (takeoffRun steps initialWorld.plane).rotation.y = Real.pi ∧
    (takeoffRun steps initialWorld.plane).rotation.z = 0 ∧
    (takeoffRun steps initialWorld.plane).rotation.x ≤ 0 := by
  obtain ⟨g1, g2, g3, g4, g5⟩ :=
    takeoffRun_centerline steps initialWorld.plane hdt (by norm_num [initialWorld])
      (by norm_num [initialWorld]) (by norm_num [initialWorld]) (by norm_num [initialWorld])
      (by norm_num [initialWorld])
  exact ⟨fun c dt s => updateTakeoff_scrub c dt s, g2, g3, g4, g5⟩

/-- Witness for C10: two frames holding every intent at once. -/
theorem takeoff_ignores_lateral_intents_witness :
    (∀ p ∈ [((⟨true, true, true, true, true⟩ : Controls), (1 : ℝ) / 10)], 0 ≤ p.2) ∧
    ((∀ (c : Controls) (dt : ℝ) (s : Plane),
        updateTakeoff (scrub c) dt s = updateTakeoff c dt s) ∧
      (takeoffRun [((⟨true, true, true, true, true⟩ : Controls), (1 : ℝ) / 10)]
        initialWorld.plane).position.x = 0 ∧
      (takeoffRun [((⟨true, true, true, true, true⟩ : Controls), (1 : ℝ) / 10)]
        initialWorld.plane).rotation.y = Real.pi ∧
      (takeoffRun [((⟨true, true, true, true, true⟩ : Controls), (1 : ℝ) / 10)]
        initialWorld.plane).rotation.z = 0 ∧
      (takeoffRun [((⟨true, true, true, true, true⟩ : Controls), (1 : ℝ) / 10)]
        initialWorld.plane).rotation.x ≤ 0) := by
  have h : ∀ p ∈ [((⟨true, true, true, true, true⟩ : Controls), (1 : ℝ) / 10)], 0 ≤ p.2 := by
    intro p hp
    rw [List.mem_singleton] at hp
    subst hp
    norm_num
  exact ⟨h, takeoff_ignores_lateral_intents _ h⟩

/-- Auxiliary: the rotation clamp lands in [-pi/4, pi/4]. -/
theorem clampAngle_bound (v : ℝ) : |clampAngle v| ≤ Real.pi / 4 := by
  have hq : (0 : ℝ) ≤ Real.pi / 4 := by positivity
  rw [clampAngle, abs_le]
  exact ⟨le_max_right _ _, max_le (min_le_right _ _) (by linarith)⟩

/-- Auxiliary: linear interpolation with a coefficient in [0, 1] stays
inside a symmetric bound containing both endpoints. -/
theorem lerp_bound (a b t M : ℝ) (ha : |a| ≤ M) (hb : |b| ≤ M)
    (ht0 : 0 ≤ t) (ht1 : t ≤ 1) : |lerp a b t| ≤ M := by
  rw [lerp]
  have h1 : |(1 - t) * a| = (1 - t) * |a| := by
    rw [abs_mul, abs_of_nonneg (by linarith)]
  have h2 : |t * b| = t * |b| := by rw [abs_mul, abs_of_nonneg ht0]
  calc |(1 - t) * a + t * b| ≤ |(1 - t) * a| + |t * b| := abs_add _ _
    _ = (1 - t) * |a| + t * |b| := by rw [h1, h2]
    _ ≤ (1 - t) * M + t * M := by nlinarith
    _ = M := by ring

/-- Auxiliary: one takeoff update keeps pitch and roll inside
[-pi/4, pi/4] when the delta time is non-negative. -/
theorem updateTakeoff_rot_bounds (c : Controls) (dt : ℝ) (s : Plane) (hdt : 0 ≤ dt)
    (hx : |s.rotation.x| ≤ Real.pi / 4) (hz : |s.rotation.z| ≤ Real.pi / 4) :
    |(updateTakeoff c dt s).rotation.x| ≤ Real.pi / 4 ∧
    |(updateTakeoff c dt s).rotation.z| ≤ Real.pi / 4 := by
  rw [abs_le] at hx hz
  simp only [updateTakeoff, groundClamp, ROTATION_SPEED]
  split_ifs <;> refine ⟨?_, ?_⟩ <;> dsimp only <;> rw [abs_le] <;>
    first
      | exact ⟨hx.1, hx.2⟩
      | exact ⟨hz.1, hz.2⟩
      | exact ⟨le_max_right _ _, max_le (by nlinarith) (by linarith [hx.2])⟩

/-- Auxiliary: one flight update keeps pitch and roll inside
[-pi/4, pi/4] when the delta time lies within the clamped range. -/
theorem update_rot_bounds (c : Controls) (dt : ℝ) (s : Plane)
    (hdt0 : 0 ≤ dt) (hdt1 : dt ≤ 0.1) :
    |(update c dt s).rotation.x| ≤ Real.pi / 4 ∧
    |(update c dt s).rotation.z| ≤ Real.pi / 4 := by
  have hpi : (3 : ℝ) < Real.pi := Real.pi_gt_three
  have htilt : |TILT_FACTOR| ≤ Real.pi / 4 := by
    rw [TILT_FACTOR, abs_le]; constructor <;> linarith
  have hneg : |(-TILT_FACTOR)| ≤ Real.pi / 4 := by rw [abs_neg]; exact htilt
  have hzero : |(0 : ℝ)| ≤ Real.pi / 4 := by rw [abs_zero]; positivity
  refine ⟨by simp only [update]; exact clampAngle_bound _, ?_⟩
  simp only [update]
  apply lerp_bound
  · exact clampAngle_bound _
  · split_ifs <;> assumption
  · linarith
  · linarith

/-- Auxiliary: the rotation bounds over any interleaving of takeoff and
flight updates. -/
theorem planeRun_rot_bounds (steps : List PhaseStep) :
    ∀ s : Plane, (∀ st ∈ steps, 0 ≤ st.dt ∧ st.dt ≤ 0.1) →
      |s.rotation.x| ≤ Real.pi / 4 → |s.rotation.z| ≤ Real.pi / 4 →
      |(planeRun steps s).rotation.x| ≤ Real.pi / 4 ∧
      |(planeRun steps s).rotation.z| ≤ Real.pi / 4 := by
  induction steps with
  | nil => exact fun s _ h1 h2 => ⟨h1, h2⟩
  | cons hd tl ih =>
    intro s hdt h1 h2
    obtain ⟨hd0, hd1⟩ := hdt _ (List.mem_cons_self _ _)
    have hrest := fun st hst => hdt st (List.mem_cons_of_mem _ hst)
    cases hd with
    | takeoff c dt =>
      obtain ⟨g1, g2⟩ := updateTakeoff_rot_bounds c dt s hd0 h1 h2
      exact ih _ hrest g1 g2
    | flight c dt =>
      obtain ⟨g1, g2⟩ := update_rot_bounds c dt s hd0 hd1
      exact ih _ hrest g1 g2

/-- C4: after any sequence of per-frame vehicle updates of either
phase, with any held intents and delta times inside the clamped range
[0, 0.1], the pitch and roll angles stay within [-pi/4, pi/4], that is
within [-45, 45] degrees. -/
theorem pitch_roll_bounded (steps : List PhaseStep)
    (hdt : ∀ st ∈ steps, 0 ≤ st.dt ∧ st.dt ≤ 0.1) :
    |(planeRun steps initialWorld.plane).rotation.x| ≤ Real.pi / 4 ∧
    |(planeRun steps initialWorld.plane).rotation.z| ≤ Real.pi / 4 := by
  refine planeRun_rot_bounds steps initialWorld.plane hdt ?_ ?_ <;>
    · show |(0 : ℝ)| ≤ Real.pi / 4
      rw [abs_zero]
      positivity

/-- Witness for C4: a takeoff frame then a flight frame, full intents. -/
theorem pitch_roll_bounded_witness :
    (∀ st ∈ [PhaseStep.takeoff (⟨true, true, true, true, true⟩ : Controls) ((1 : ℝ) / 20),
        PhaseStep.flight (⟨true, true, true, true, true⟩ : Controls) ((1 : ℝ) / 10)],
      0 ≤ st.dt ∧ st.dt ≤ 0.1) ∧
    (|(planeRun [PhaseStep.takeoff (⟨true, true, true, true, true⟩ : Controls) ((1 : ℝ) / 20),
        PhaseStep.flight (⟨true, true, true, true, true⟩ : Controls) ((1 : ℝ) / 10)]
        initialWorld.plane).rotation.x| ≤ Real.pi / 4 ∧
      |(planeRun [PhaseStep.takeoff (⟨true, true, true, true, true⟩ : Controls) ((1 : ℝ) / 20),
        PhaseStep.flight (⟨true, true, true, true, true⟩ : Controls) ((1 : ℝ) / 10)]
        initialWorld.plane).rotation.z| ≤ Real.pi / 4) := by
  have h : ∀ st ∈ [PhaseStep.takeoff (⟨true, true, true, true, true⟩ : Controls) ((1 : ℝ) / 20),
      PhaseStep.flight (⟨true, true, true, true, true⟩ : Controls) ((1 : ℝ) / 10)],
      0 ≤ st.dt ∧ st.dt ≤ 0.1 := by
    intro st hst
    rcases List.mem_cons.mp hst with h1 | h1
    · subst h1; constructor <;> norm_num [PhaseStep.dt]
    · rw [List.mem_singleton] at h1; subst h1; constructor <;> norm_num [PhaseStep.dt]
  exact ⟨h, pitch_roll_bounded _ h⟩

/-- Auxiliary: a flight update with no intent held from a level
attitude at yaw pi keeps the attitude and moves the airplane by 30 dt
toward positive z (the forward direction at yaw pi is (0, 0, 1)). -/
theorem update_noctl_level (dt px py pz : ℝ) (v : Vec3) :
    update noCtl dt ⟨⟨px, py, pz⟩, ⟨0, Real.pi, 0⟩, v⟩ =
      ⟨⟨px, py, pz + 30 * dt⟩, ⟨0, Real.pi, 0⟩, ⟨0, 0, 30⟩⟩ := by
  have h1 : min (0 : ℝ) (Real.pi / 4) = 0 := min_eq_left (by positivity)
  have h2 : max (0 : ℝ) (-(Real.pi / 4)) = 0 :=
    max_eq_left (by simp only [neg_nonpos]; positivity)
  simp only [update, noCtl, Bool.false_eq_true, if_false, clampAngle, h1, h2,
    flightDirection, Real.sin_pi, Real.cos_pi, Real.sin_zero, Real.cos_zero,
    MAX_SPEED, lerp]
  norm_num

/-- Auxiliary: an airplane at altitude 6 cannot meet the demo
obstacles, which all float with their boxes above altitude 15 while the
demo vehicle box tops out at altitude 7. -/
theorem c3_no_collision (p : Plane) (hy : p.position.y = 6) :
    ¬ ∃ o ∈ c3Obstacles, checkCollision o (planeBoxDemo p) := by
  rintro ⟨o, ho, hc⟩
  rw [checkCollision, intersectsBox] at hc
  push_neg at hc
  simp only [c3Obstacles, List.mem_cons, List.not_mem_nil, or_false] at ho
  rcases ho with h | h | h | h | h <;> subst h <;>
    · have h3 := hc.2.2.1
      simp only [obstacleBox, planeBoxDemo, mountainAt] at h3
      rw [hy] at h3
      norm_num at h3

/-- Auxiliary: the despawn filter keeps every demo obstacle as long as
the airplane has not flown beyond z = -110 toward negative z. -/
theorem c3_despawn_none (z : ℝ) (hz : -110 ≤ z) :
    despawnKept z c3Obstacles = c3Obstacles := by
  rw [despawnKept, List.filter_eq_self]
  intro o ho
  simp only [c3Obstacles, List.mem_cons, List.not_mem_nil, or_false] at ho
  rw [Bool.not_eq_true', decide_eq_false_iff_not]
  rcases ho with h | h | h | h | h <;> subst h <;>
    · simp only [mountainAt]
      push_neg
      linarith

/-- Auxiliary: the score sampled or carried across one frame of the
straight-flight run. -/
theorem c3_score_step (n : ℕ) (hn : n ≤ 60) :
    (if (60 + n) % 60 = 0
      then Int.floor (|(-51 + 3 / 10 * ((n + 1 : ℕ) : ℝ))| / 10)
      else (c3World n).game.score) = (c3World (n + 1)).game.score := by
  rcases Nat.eq_zero_or_pos n with h0 | hpos
  · subst h0
    have habs : |(-51 + 3 / 10 * ((0 + 1 : ℕ) : ℝ))| = 507 / 10 := by
      rw [abs_of_nonpos (by norm_num)]
      norm_num
    simp only [c3World, habs]
    norm_num
  · rcases eq_or_lt_of_le hn with h60 | hlt
    · subst h60
      have habs : |(-51 + 3 / 10 * ((60 + 1 : ℕ) : ℝ))| = 327 / 10 := by
        rw [abs_of_nonpos (by norm_num)]
        norm_num
      simp only [c3World, habs]
      norm_num
    · have hmod : ¬ ((60 + n) % 60 = 0) := by omega
      have hne : ¬ (n = 0) := by omega
      have hne1 : ¬ (n + 1 = 0) := by omega
      have hle1 : n + 1 ≤ 60 := by omega
      simp only [c3World, if_neg hmod, if_neg hne, if_neg hne1, if_pos hn, if_pos hle1]

/-- Auxiliary: the speed published to the game state on the
straight-flight run. -/
theorem norm3_cruise : norm3 (⟨0, 0, 30⟩ : Vec3) = 30 := by
  rw [norm3]
  norm_num
  rw [show (900 : ℝ) = 30 ^ 2 by norm_num, Real.sqrt_sq (by norm_num)]

/-- Auxiliary: one animation frame of the straight-flight run advances
the closed form by one index. -/
theorem c3_step (n : ℕ) (hn : n ≤ 60) :
    animateFrame planeBoxDemo c3Input (c3World n) = c3World (n + 1) := by
  have hdt : min ((1 : ℝ) / 100) 0.1 = 1 / 100 := by norm_num
  have hplane : update noCtl (1 / 100) (c3World n).plane =
      ⟨⟨0, 6, -51 + 3 / 10 * ((n + 1 : ℕ) : ℝ)⟩, ⟨0, Real.pi, 0⟩, ⟨0, 0, 30⟩⟩ := by
    rw [show (c3World n).plane =
        ⟨⟨0, 6, -51 + 3 / 10 * (n : ℝ)⟩, ⟨0, Real.pi, 0⟩, ⟨0, 0, 30⟩⟩ from rfl]
    rw [update_noctl_level]
    have hz : (-51 + 3 / 10 * (n : ℝ)) + 30 * (1 / 100) =
        -51 + 3 / 10 * ((n + 1 : ℕ) : ℝ) := by push_cast; ring
    rw [hz]
  have hnc : ¬ ∃ o ∈ c3Obstacles, checkCollision o (planeBoxDemo
      ⟨⟨0, 6, -51 + 3 / 10 * ((n + 1 : ℕ) : ℝ)⟩, ⟨0, Real.pi, 0⟩, ⟨0, 0, 30⟩⟩) :=
    c3_no_collision _ rfl
  have hkeep : despawnKept (-51 + 3 / 10 * ((n + 1 : ℕ) : ℝ)) c3Obstacles = c3Obstacles := by
    apply c3_despawn_none
    have : (0 : ℝ) ≤ ((n + 1 : ℕ) : ℝ) := Nat.cast_nonneg _
    linarith
  have hobs : (c3World n).obstacles = c3Obstacles := rfl
  have hgo : (c3World n).game.isGameOver = false := rfl
  have hph : (c3World n).game.gamePhase = Phase.flight := rfl
  have hfid : (c3World n).frameId = 60 + n := rfl
  have hscore := c3_score_step n hn
  have hfp : handleFlightPhase planeBoxDemo noCtl (1 / 100) drawZero (c3World n) =
      { game := { score := (c3World (n + 1)).game.score, isGameOver := false,
                  playerPosition := (c3World n).game.playerPosition,
                  gamePhase := Phase.flight, speed := 30 },
        plane := ⟨⟨0, 6, -51 + 3 / 10 * ((n + 1 : ℕ) : ℝ)⟩, ⟨0, Real.pi, 0⟩, ⟨0, 0, 30⟩⟩,
        obstacles := c3Obstacles,
        frameId := 60 + n } := by
    simp only [handleFlightPhase, hplane, hobs, hgo, hfid]
    rw [if_neg hnc, hkeep]
    rw [if_neg (show ¬ c3Obstacles.length < 5 by
      rw [show c3Obstacles.length = 5 from rfl]; omega)]
    rw [hscore]
    rfl
  simp only [animateFrame, c3Input, hdt, hgo, Bool.false_eq_true, if_false, hph, hfp,
    norm3_cruise]
  rfl

/-- Auxiliary: closed form of the whole straight-flight run. -/
theorem c3Run_eq (n : ℕ) (hn : n ≤ 61) : c3Run n = c3World n := by
  induction n with
  | zero => rfl
  | succ k ih =>
    rw [c3Run, ih (by omega), c3_step k (by omega)]

/-- C3 counterexample: on a live flight session entered at z = -51
facing yaw pi (the state the takeoff handler produces), sixty frames of
1/100 s with no intent held carry the score from 5 (sampled at frame
handle 60) down to 3 (sampled at frame handle 120): the score is not
non-decreasing, because the flight direction at yaw pi points toward
positive z and shrinks the sampled longitudinal distance. -/
theorem score_decreases_on_straight_flight :
    (c3Run 1).game.score = 5 ∧ (c3Run 61).game.score = 3 ∧
    ((c3Run 61).game.score < (c3Run 1).game.score) ∧
    (c3Run 61).game.isGameOver = false ∧
    (c3Run 61).game.gamePhase = Phase.flight := by
  rw [c3Run_eq 1 (by omega), c3Run_eq 61 (by omega)]
  refine ⟨rfl, rfl, ?_, rfl, rfl⟩
  rw [show (c3World 61).game.score = 3 from rfl, show (c3World 1).game.score = 5 from rfl]
  omega

/-- Auxiliary: runs compose over list append. -/
theorem animateRun_append (pb : Plane → Box3) (l1 l2 : List FrameInput) (w : World) :
    animateRun pb (l1 ++ l2) w = animateRun pb l2 (animateRun pb l1 w) := by
  induction l1 generalizing w with
  | nil => rfl
  | cons hd tl ih =>
    show animateRun pb (tl ++ l2) (animateFrame pb hd w) = _
    rw [ih]
    rfl

/-- Auxiliary: the prefix run of length i + 1 is one frame applied to
the prefix run of length i. -/
theorem animateRun_take_succ (pb : Plane → Box3) (l : List FrameInput) (i : ℕ)
    (hi : i < l.length) (w : World) :
    animateRun pb (l.take (i + 1)) w =
      animateFrame pb (l.get ⟨i, hi⟩) (animateRun pb (l.take i) w) := by
  rw [List.take_succ, animateRun_append]
  rw [List.getElem?_eq_getElem hi]
  rfl

/-- Auxiliary: a flight frame keeps the phase, never decreases the
score when the longitudinal distance does not decrease across it, and
keeps the score at most the floor of a tenth of the distance. -/
theorem flight_frame_score (pb : Plane → Box3) (inp : FrameInput) (w : World)
    (hphase : w.game.gamePhase = Phase.flight)
    (hsc : w.game.score ≤ Int.floor (longDist w / 10))
    (hd : longDist w ≤ longDist (animateFrame pb inp w)) :
    (animateFrame pb inp w).game.gamePhase = Phase.flight ∧
    w.game.score ≤ (animateFrame pb inp w).game.score ∧
    (animateFrame pb inp w).game.score ≤ Int.floor (longDist (animateFrame pb inp w) / 10) := by
  have hfloor : Int.floor (longDist w / 10) ≤ Int.floor (longDist (animateFrame pb inp w) / 10) :=
    Int.floor_le_floor (by linarith)
  by_cases hgo : w.game.isGameOver = true
  · have he : animateFrame pb inp w = { w with frameId := w.frameId + 1 } := by
      simp [animateFrame, hgo]
    rw [he] at hfloor ⊢
    exact ⟨hphase, le_refl _, le_trans hsc hfloor⟩
  · rw [Bool.not_eq_true] at hgo
    have he : animateFrame pb inp w =
        { handleFlightPhase pb inp.controls (min inp.rawDt 0.1) inp.addDraw w with
          game := { (handleFlightPhase pb inp.controls (min inp.rawDt 0.1) inp.addDraw w).game with
            playerPosition :=
              (handleFlightPhase pb inp.controls (min inp.rawDt 0.1) inp.addDraw w).plane.position,
            speed := norm3
              (handleFlightPhase pb inp.controls (min inp.rawDt 0.1) inp.addDraw w).plane.velocity },
          frameId := (handleFlightPhase pb inp.controls (min inp.rawDt 0.1) inp.addDraw w).frameId
            + 1 } := by
      simp [animateFrame, hgo, hphase]
    rw [he] at hfloor ⊢
    simp only [handleFlightPhase, longDist] at hfloor ⊢
    refine ⟨hphase, ?_, ?_⟩ <;> split_ifs <;>
      first
        | exact le_trans hsc hfloor
        | exact le_refl _

/-- C3 amended: the score is floor(abs z / 10) at each sampled frame.
Over a Flight-phase run without restart whose start state carries a
score of at most floor(abs z / 10) - as at flight entry, where the
score is still 0 - the score is non-decreasing along any interval on
which the longitudinal distance abs z is non-decreasing.  The proviso
is needed because the sampler overwrites a stale higher score, and the
claim's unconditional monotonicity fails outright because the flight
direction can shrink abs z (the forward vector at the initial flight
yaw pi points toward positive z and yaw is unbounded). -/
theorem score_monotone_of_distance_monotone (pb : Plane → Box3) (inputs : List FrameInput)
    (w : World) (hphase : w.game.gamePhase = Phase.flight)
    (hsc : w.game.score ≤ Int.floor (longDist w / 10))
    (hmono : ∀ i, i < inputs.length →
      longDist (animateRun pb (inputs.take i) w) ≤
        longDist (animateRun pb (inputs.take (i + 1)) w)) :
    ∀ i j, i ≤ j → j ≤ inputs.length →
      (animateRun pb (inputs.take i) w).game.score ≤
        (animateRun pb (inputs.take j) w).game.score := by
  have hinv : ∀ k, k ≤ inputs.length →
      (animateRun pb (inputs.take k) w).game.gamePhase = Phase.flight ∧
      (animateRun pb (inputs.take k) w).game.score ≤
        Int.floor (longDist (animateRun pb (inputs.take k) w) / 10) := by
    intro k
    induction k with
    | zero => exact fun _ => ⟨hphase, hsc⟩
    | succ m ih =>
      intro hk
      have hmlt : m < inputs.length := by omega
      obtain ⟨p1, p2⟩ := ih (by omega)
      have hd : longDist (animateRun pb (inputs.take m) w) ≤
          longDist (animateFrame pb (inputs.get ⟨m, hmlt⟩) (animateRun pb (inputs.take m) w)) := by
        have h := hmono m hmlt
        rwa [animateRun_take_succ pb inputs m hmlt w] at h
      obtain ⟨q1, q2, q3⟩ :=
        flight_frame_score pb (inputs.get ⟨m, hmlt⟩) (animateRun pb (inputs.take m) w) p1 p2 hd
      rw [animateRun_take_succ pb inputs m hmlt w]
      exact ⟨q1, q3⟩
  have hcons : ∀ m, m < inputs.length →
      (animateRun pb (inputs.take m) w).game.score ≤
        (animateRun pb (inputs.take (m + 1)) w).game.score := by
    intro m hmlt
    obtain ⟨p1, p2⟩ := hinv m (by omega)
    have hd : longDist (animateRun pb (inputs.take m) w) ≤
        longDist (animateFrame pb (inputs.get ⟨m, hmlt⟩) (animateRun pb (inputs.take m) w)) := by
      have h := hmono m hmlt
      rwa [animateRun_take_succ pb inputs m hmlt w] at h
    obtain ⟨q1, q2, q3⟩ :=
      flight_frame_score pb (inputs.get ⟨m, hmlt⟩) (animateRun pb (inputs.take m) w) p1 p2 hd
    rw [animateRun_take_succ pb inputs m hmlt w]
    exact q2
  have hchain : ∀ d i, i + d ≤ inputs.length →
      (animateRun pb (inputs.take i) w).game.score ≤
        (animateRun pb (inputs.take (i + d)) w).game.score := by
    intro d
    induction d with
    | zero => exact fun i _ => le_refl _
    | succ e ih =>
      intro i hi
      have h1 := ih i (by omega)
      have h2 := hcons (i + e) (by omega)
      rw [show i + (e + 1) = (i + e) + 1 by omega]
      exact le_trans h1 h2
  intro i j hij hj
  have h := hchain (j - i) i (by omega)
  rwa [show i + (j - i) = j by omega] at h

/-- Witness for the amended C3: one live frame from a state moving
toward positive z, across which the longitudinal distance grows from
10 to 10.3, discharging the distance-monotonicity hypothesis on a real
frame step. -/
theorem score_monotone_witness :
    (c3MonoWorld.game.gamePhase = Phase.flight ∧
      c3MonoWorld.game.score ≤ Int.floor (longDist c3MonoWorld / 10) ∧
      (∀ i, i < ([c3Input] : List FrameInput).length →
        longDist (animateRun planeBoxDemo (([c3Input] : List FrameInput).take i) c3MonoWorld) ≤
          longDist (animateRun planeBoxDemo (([c3Input] : List FrameInput).take (i + 1))
            c3MonoWorld))) ∧
    (∀ i j, i ≤ j → j ≤ ([c3Input] : List FrameInput).length →
      (animateRun planeBoxDemo (([c3Input] : List FrameInput).take i) c3MonoWorld).game.score ≤
        (animateRun planeBoxDemo (([c3Input] : List FrameInput).take j)
          c3MonoWorld).game.score) := by
  have h1 : c3MonoWorld.game.gamePhase = Phase.flight := rfl
  have h2 : c3MonoWorld.game.score ≤ Int.floor (longDist c3MonoWorld / 10) := by
    rw [show c3MonoWorld.game.score = 0 from rfl]
    rw [show longDist c3MonoWorld = |(10 : ℝ)| from rfl]
    rw [Int.le_floor]
    norm_num
  have hplane : (animateFrame planeBoxDemo c3Input c3MonoWorld).plane =
      ⟨⟨0, 6, 10 + 30 * (1 / 100)⟩, ⟨0, Real.pi, 0⟩, ⟨0, 0, 30⟩⟩ := by
    have hdt : min ((1 : ℝ) / 100) 0.1 = 1 / 100 := by norm_num
    have hgo : c3MonoWorld.game.isGameOver = false := rfl
    have hph : c3MonoWorld.game.gamePhase = Phase.flight := rfl
    have hup : update noCtl (1 / 100) c3MonoWorld.plane =
        ⟨⟨0, 6, 10 + 30 * (1 / 100)⟩, ⟨0, Real.pi, 0⟩, ⟨0, 0, 30⟩⟩ := by
      rw [show c3MonoWorld.plane = ⟨⟨0, 6, 10⟩, ⟨0, Real.pi, 0⟩, ⟨0, 0, 30⟩⟩ from rfl]
      exact update_noctl_level (1 / 100) 0 6 10 ⟨0, 0, 30⟩
    simp only [animateFrame, c3Input, hdt, hgo, Bool.false_eq_true, if_false, hph,
      handleFlightPhase, hup]
  have h3 : ∀ i, i < ([c3Input] : List FrameInput).length →
      longDist (animateRun planeBoxDemo (([c3Input] : List FrameInput).take i) c3MonoWorld) ≤
        longDist (animateRun planeBoxDemo (([c3Input] : List FrameInput).take (i + 1))
          c3MonoWorld) := by
    intro i hi
    have hi0 : i = 0 := by simpa using hi
    subst hi0
    rw [show (([c3Input] : List FrameInput).take 0) = [] from rfl,
      show (([c3Input] : List FrameInput).take 1) = [c3Input] from rfl]
    rw [show animateRun planeBoxDemo [c3Input] c3MonoWorld =
        animateFrame planeBoxDemo c3Input c3MonoWorld from rfl]
    rw [show animateRun planeBoxDemo [] c3MonoWorld = c3MonoWorld from rfl]
    rw [longDist, longDist, hplane]
    rw [show c3MonoWorld.plane.position.z = (10 : ℝ) from rfl]
    rw [show ((⟨⟨0, 6, 10 + 30 * (1 / 100)⟩, ⟨0, Real.pi, 0⟩, ⟨0, 0, 30⟩⟩ : Plane).position.z)
      = (10 + 30 * (1 / 100) : ℝ) from rfl]
    rw [abs_of_nonneg (by norm_num : (0 : ℝ) ≤ 10),
      abs_of_nonneg (by norm_num : (0 : ℝ) ≤ 10 + 30 * (1 / 100))]
    norm_num
  exact ⟨⟨h1, h2, h3⟩,
    score_monotone_of_distance_monotone planeBoxDemo [c3Input] c3MonoWorld h1 h2 h3⟩

/-- C2 counterexample: the collision test is an axis-aligned box
intersection, not a sphere test of radius 1.5 about the vehicle
position.  With the airplane level at (0, 20, 0) and an obstacle whose
box spans x in [2.5, 12.5] at the same altitude, the flight handler
latches game-over (the obstacle box overlaps the wing box), yet the
obstacle box stays strictly farther than 1.5 from the vehicle position,
so the spec's sphere volume reports no intersection. -/
theorem collision_test_not_sphere :
    (handleFlightPhase c2PlaneBox noCtl 0 drawZero c2World).game.isGameOver = true ∧
    ¬ sphereIntersectsBox (⟨0, 20, 0⟩ : Vec3) (3 / 2) (obstacleBox c2Obstacle) := by
  constructor
  · have hpos : (update noCtl 0 c2World.plane).position = (⟨0, 20, 0⟩ : Vec3) := by
      rw [update_zero_dt_position]
      rfl
    have hmem : c2Obstacle ∈ c2World.obstacles := by
      rw [show c2World.obstacles = [c2Obstacle] from rfl]
      exact List.mem_singleton.mpr rfl
    have hcc : checkCollision c2Obstacle (c2PlaneBox (update noCtl 0 c2World.plane)) := by
      rw [checkCollision, c2PlaneBox, hpos, intersectsBox]
      push_neg
      simp only [obstacleBox, c2Obstacle, mountainAt, wingBox]
      norm_num
    have hcol : ∃ o ∈ c2World.obstacles,
        checkCollision o (c2PlaneBox (update noCtl 0 c2World.plane)) :=
      ⟨c2Obstacle, hmem, hcc⟩
    simp only [handleFlightPhase, hcol, if_true]
  · norm_num [sphereIntersectsBox, obstacleBox, c2Obstacle, mountainAt, max_def, min_def]

/-- C2 amended: on a live flight frame the game-over flag is latched
exactly when some active obstacle's bounding box intersects the
bounding box of the updated airplane mesh (the vehicle collision volume
is its mesh axis-aligned box, not a fixed-radius sphere). -/
theorem collision_box_sets_gameover (pb : Plane → Box3) (inp : FrameInput) (w : World)
    (hphase : w.game.gamePhase = Phase.flight)
    (hgo : w.game.isGameOver = false) :
    ((animateFrame pb inp w).game.isGameOver = true ↔
      ∃ o ∈ w.obstacles,
        checkCollision o (pb (update inp.controls (min inp.rawDt 0.1) w.plane))) := by
  simp only [animateFrame, hgo, Bool.false_eq_true, if_false, hphase, handleFlightPhase]
  by_cases hcol : ∃ o ∈ w.obstacles,
      checkCollision o (pb (update inp.controls (min inp.rawDt 0.1) w.plane))
  · simp [hcol]
  · simp [hcol, hgo]

/-- Witness for the amended C2 at the concrete wing-overlap state. -/
theorem collision_box_sets_gameover_witness :
    (c2World.game.gamePhase = Phase.flight ∧ c2World.game.isGameOver = false) ∧
    ((animateFrame c2PlaneBox (⟨noCtl, 0, [], drawZero⟩ : FrameInput) c2World).game.isGameOver
        = true ↔
      ∃ o ∈ c2World.obstacles,
        checkCollision o (c2PlaneBox (update noCtl (min 0 0.1) c2World.plane))) :=
  ⟨⟨rfl, rfl⟩,
    collision_box_sets_gameover c2PlaneBox (⟨noCtl, 0, [], drawZero⟩ : FrameInput) c2World rfl rfl⟩

/-- C7 counterexample: the replenish rule adds only one obstacle per
frame, so a frame on which two obstacles despawn at once drops the
active count from five to four: at z = -260 the obstacles at z = -150
and z = -155 are both more than 50 units behind. -/
theorem obstacle_count_drops_below_five :
    c7World.obstacles.length = 5 ∧
    (handleFlightPhase planeBoxDemo noCtl 0 drawZero c7World).obstacles.length = 4 := by
  constructor
  · rfl
  · have hpz : (update noCtl 0 c7World.plane).position.z = -260 := by
      rw [update_zero_dt_position]
      rfl
    have hkeep : despawnKept (update noCtl 0 c7World.plane).position.z c7World.obstacles =
        [mountainAt (-10) 20 (-240), mountainAt 20 20 (-245), mountainAt (-20) 20 (-250)] := by
      rw [hpz, show c7World.obstacles = [mountainAt 0 20 (-150), mountainAt 10 20 (-155),
        mountainAt (-10) 20 (-240), mountainAt 20 20 (-245), mountainAt (-20) 20 (-250)]
        from rfl]
      rw [despawnKept]
      norm_num [List.filter_cons, List.filter_nil, mountainAt, Bool.not_eq_true',
        decide_eq_false_iff_not, decide_eq_true_eq]
    simp only [handleFlightPhase, hkeep]
    rw [if_pos (by norm_num)]
    rfl

/-- C7 amended: after a flight-phase obstacle update the active count
is always at least one, and it stays at least five provided at most one
obstacle despawned on that frame; it can drop below five when several
obstacles cross the despawn frontier in the same frame, because the
replenish rule adds at most one obstacle per frame. -/
theorem obstacle_count_lower_bounds (pb : Plane → Box3) (c : Controls) (dt : ℝ)
    (d : Draw) (w : World) :
    1 ≤ (handleFlightPhase pb c dt d w).obstacles.length ∧
    (5 ≤ w.obstacles.length →
      w.obstacles.length - 1 ≤
        (despawnKept (update c dt w.plane).position.z w.obstacles).length →
      5 ≤ (handleFlightPhase pb c dt d w).obstacles.length) := by
  simp only [handleFlightPhase]
  constructor
  · split_ifs with h
    · simp only [List.length_append, List.length_singleton]
      omega
    · omega
  · intro h5 hk
    split_ifs with h
    · simp only [List.length_append, List.length_singleton]
      omega
    · omega

/-- Witness for the amended C7 at the flight-entry state, where no
obstacle despawns. -/
theorem obstacle_count_lower_bounds_witness :
    (5 ≤ (c3World 0).obstacles.length ∧
      (c3World 0).obstacles.length - 1 ≤
        (despawnKept (update noCtl 0 (c3World 0).plane).position.z
          (c3World 0).obstacles).length) ∧
    (1 ≤ (handleFlightPhase planeBoxDemo noCtl 0 drawZero (c3World 0)).obstacles.length ∧
      (5 ≤ (c3World 0).obstacles.length →
        (c3World 0).obstacles.length - 1 ≤
          (despawnKept (update noCtl 0 (c3World 0).plane).position.z
            (c3World 0).obstacles).length →
        5 ≤ (handleFlightPhase planeBoxDemo noCtl 0 drawZero (c3World 0)).obstacles.length)) := by
  have hpz : (update noCtl 0 (c3World 0).plane).position.z = -51 + 3 / 10 * ((0 : ℕ) : ℝ) := by
    rw [update_zero_dt_position]
    rfl
  have hkeep : despawnKept (update noCtl 0 (c3World 0).plane).position.z
      (c3World 0).obstacles = c3Obstacles := by
    rw [hpz, show (c3World 0).obstacles = c3Obstacles from rfl]
    apply c3_despawn_none
    norm_num
  refine ⟨⟨?_, ?_⟩, obstacle_count_lower_bounds planeBoxDemo noCtl 0 drawZero (c3World 0)⟩
  · rw [show (c3World 0).obstacles = c3Obstacles from rfl,
      show c3Obstacles.length = 5 from rfl]
  · rw [hkeep, show (c3World 0).obstacles = c3Obstacles from rfl,
      show c3Obstacles.length = 5 from rfl]
    omega

end AirplaneGame
